import Mathlib

/-!
Shallow embedding of the build-link codec logic of `src/main.py`
(GW2_Project).  Python strings are modelled as Lean `String`s
(sequences of characters); byte strings as `List Nat` with every
element a byte value below 256 by construction.  Each distinct
failure exit of `decode_build_link` (the Python function returns
`None`, after printing a message specific to the exit) is modelled as
a distinct error constructor, and the successful dictionary result as
the structure `Decoded`.  Print statements are pure presentation and
are not modelled.
-/

/-- The result dictionary of a successful `decode_build_link` call.
The Python dict carries `link_type` as a hex string and the raw bytes
as a hex string; both are pure presentations of the numeric values
kept here. -/
structure Decoded where
  link_type : Nat
  version : Nat
  profession_id_simplified : Nat
  raw_bytes : List Nat
deriving DecidableEq

/-- One constructor per distinct `return None` exit of
`decode_build_link` in `src/main.py`: bad envelope (line 59), base64
error (line 68), empty payload (line 78), `IndexError` on the fixed
byte reads (line 109). -/
inductive DecodeErr where
  | badEnvelope
  | badEncoding
  | emptyPayload
  | tooShort
deriving DecidableEq

/-- Value of a character in the standard base64 alphabet
(`binascii`'s decoding table); `none` for characters outside the
alphabet, which the non-strict decoder discards. -/
def b64val (c : Char) : Option Nat :=
  let n := c.toNat
  if 65 ≤ n ∧ n ≤ 90 then some (n - 65)
  else if 97 ≤ n ∧ n ≤ 122 then some (n - 71)
  else if 48 ≤ n ∧ n ≤ 57 then some (n + 4)
  else if n = 43 then some 62
  else if n = 47 then some 63
  else none

/-- CPython's `binascii.a2b_base64` in non-strict mode (the mode
`base64.b64decode` uses with `validate=False`): characters outside
the alphabet are discarded; a `=` once the current quad has at least
two characters and enough pads have been seen terminates the data and
flushes the leftover bits; a final incomplete quad is an error,
modelled as `none`. -/
def a2b_base64 (input : List Char) (quad_pos leftchar pads : Nat)
    (acc : List Nat) : Option (List Nat) :=
  match input with
  | [] => if quad_pos = 0 then some acc else none
  | c :: rest =>
    if c = '=' then
      if 2 ≤ quad_pos then
        if 4 ≤ quad_pos + (pads + 1) then
          if quad_pos = 2 then some (acc ++ [(leftchar >>> 4) % 256])
          else some (acc ++ [(leftchar >>> 10) % 256, (leftchar >>> 2) % 256])
        else a2b_base64 rest quad_pos leftchar (pads + 1) acc
      else a2b_base64 rest quad_pos leftchar pads acc
    else
      match b64val c with
      | none => a2b_base64 rest quad_pos leftchar pads acc
      | some v =>
        let l := (leftchar <<< 6) ||| v
        if quad_pos = 3 then
          a2b_base64 rest 0 0 0
            (acc ++ [(l >>> 16) % 256, (l >>> 8) % 256, l % 256])
        else a2b_base64 rest (quad_pos + 1) l 0 acc

/-- `base64.b64decode` with default arguments, as called on the link
payload; `none` models the raised `binascii.Error`. -/
def b64decode (s : List Char) : Option (List Nat) :=
  a2b_base64 s 0 0 0 []

/-- Python `str.startswith` on character sequences. -/
def py_startswith (s p : String) : Bool :=
  p.data.isPrefixOf s.data

/-- Python `str.endswith` on character sequences. -/
def py_endswith (s p : String) : Bool :=
  p.data.isSuffixOf s.data

/-- The slice `link_string[2:-1]` taken by `decode_build_link` after
the envelope check. -/
def base64_part (s : String) : List Char :=
  (s.data.drop 2).dropLast

/-- The byte-level tail of `decode_build_link` (lines 77 to 111 of
`src/main.py`): an empty payload returns `None`; reading
`decoded_bytes[0]`, `decoded_bytes[1]`, `decoded_bytes[2]` raises
`IndexError` on payloads of one or two bytes, also returning `None`;
otherwise the result dictionary is built from the first three bytes
and the raw byte sequence.  No tag dispatch or further layout check
is performed. -/
def parse_decoded_bytes (decoded_bytes : List Nat) : Except DecodeErr Decoded :=
  match decoded_bytes with
  | [] => .error .emptyPayload
  | [_] => .error .tooShort
  | [_, _] => .error .tooShort
  | link_type :: version :: profession_id :: rest =>
    .ok { link_type := link_type, version := version,
          profession_id_simplified := profession_id,
          raw_bytes := link_type :: version :: profession_id :: rest }

/-- `decode_build_link` of `src/main.py`: envelope check, base64
decode of the inner payload, then the simplified byte parse.  Each
`return None` exit is tagged with its `DecodeErr` constructor. -/
def decode_build_link (link_string : String) : Except DecodeErr Decoded :=
  if py_startswith link_string "[&" && py_endswith link_string "]" then
    match b64decode (base64_part link_string) with
    | none => .error .badEncoding
    | some decoded_bytes => parse_decoded_bytes decoded_bytes
  else .error .badEnvelope

/-- The base64 alphabet character for a 6-bit value
(`base64.b64encode`'s table). -/
def b64chr (n : Nat) : Char :=
  if n < 26 then Char.ofNat (65 + n)
  else if n < 52 then Char.ofNat (71 + n)
  else if n < 62 then Char.ofNat (n - 4)
  else if n = 62 then Char.ofNat 43
  else Char.ofNat 47

/-- `base64.b64encode` on a byte sequence, producing the standard
padded encoding. -/
def b64encode : List Nat → List Char
  | b1 :: b2 :: b3 :: rest =>
    let w := ((b1 % 256) <<< 16) ||| ((b2 % 256) <<< 8) ||| (b3 % 256)
    b64chr (w >>> 18) :: b64chr ((w >>> 12) % 64) :: b64chr ((w >>> 6) % 64) ::
      b64chr (w % 64) :: b64encode rest
  | [b1, b2] =>
    let w := ((b1 % 256) <<< 10) ||| ((b2 % 256) <<< 2)
    [b64chr (w >>> 12), b64chr ((w >>> 6) % 64), b64chr (w % 64), '=']
  | [b1] =>
    let w := (b1 % 256) <<< 4
    [b64chr (w >>> 6), b64chr (w % 64), '=', '=']
  | [] => []

/-- The hard-coded `dummy_binary_data` of `encode_build_link`
(line 156 of `src/main.py`). -/
def dummy_binary_data : List Nat :=
  [0x0A, 0x01, 0x02, 0x01, 0x02, 0x03, 0x04, 0x05, 0x06,
   0x07, 0x08, 0x09, 0x0A, 0x0B, 0x0C]

/-- `encode_build_link` of `src/main.py`: ignores `build_data`
entirely and returns the fixed dummy payload base64-encoded and
wrapped in a single pair of square brackets, with no `&` after the
opening bracket. -/
def encode_build_link {α : Type} (build_data : α) : String :=
  "[" ++ String.mk (b64encode dummy_binary_data) ++ "]"

/-- Modelled from the spec: trait packing is absent from `src`
(`encode_build_link` is a stub that packs nothing); section 4.2 of
the spec packs the three 2-bit tier choices of one specialization
slot into a byte via `tier0 | (tier1 << 2) | (tier2 << 4)`. -/
def pack_traits (t0 t1 t2 : Nat) : Nat :=
  t0 ||| (t1 <<< 2) ||| (t2 <<< 4)

/-- Modelled from the spec: trait unpacking is absent from `src`;
the spec unpacks tier `tier` of a packed trait byte by
`(byte >> (2*tier)) & 0b11`. -/
def unpack_trait (b tier : Nat) : Nat :=
  (b >>> (2 * tier)) &&& 3

/-- A decoded payload parses successfully exactly when it holds at
least three bytes (the three fixed reads of `decode_build_link`). -/
theorem parse_ok_iff_three_le (bs : List Nat) :
    (∃ v, parse_decoded_bytes bs = .ok v) ↔ 3 ≤ bs.length := by
  match bs with
  | [] => simp [parse_decoded_bytes]
  | [a] => simp [parse_decoded_bytes]
  | [a, b] => simp [parse_decoded_bytes]
  | a :: b :: c :: t =>
    simp only [parse_decoded_bytes, List.length_cons]
    exact ⟨fun _ => by omega, fun _ => ⟨_, rfl⟩⟩

/-- C1: the envelope round trip fails in the code.  For every input
`b`, `encode_build_link` ignores `b` and produces a string wrapped in
plain square brackets without the `&` marker (contrary to its own
comment that links are wrapped in `[&...]`), so `decode_build_link`
rejects it at the envelope check; `decode_build_link
(encode_build_link b)` is the bad-envelope failure, never `b`. -/
theorem decode_encode_roundtrip_fails {α : Type} (b : α) :
    decode_build_link (encode_build_link b) = .error .badEnvelope := by
  rfl

/-- C2: for every build value `t`, decoding the encoding of `t`
returns no decoded value at all (let alone one equal to `t`):
`encode_build_link` returns a fixed dummy string with no `[&` prefix,
which `decode_build_link` rejects. -/
theorem decode_encode_returns_no_value {α : Type} (t : α) :
    ¬ ∃ v, decode_build_link (encode_build_link t) = .ok v := by
  rintro ⟨v, hv⟩
  have h : decode_build_link (encode_build_link t) =
      Except.error DecodeErr.badEnvelope := rfl
  rw [h] at hv
  exact Except.noConfusion hv

/-- C3: `decode_build_link` fails through the bad-envelope exit
exactly when the input does not both start with `[&` and end with
`]`; in particular `"DQYAAAA"` fails that way. -/
theorem badEnvelope_iff_bad_markers :
    (∀ s : String, decode_build_link s = .error .badEnvelope ↔
      ¬(py_startswith s "[&" = true ∧ py_endswith s "]" = true)) ∧
    decode_build_link "DQYAAAA" = .error .badEnvelope := by
  refine ⟨fun s => ?_, rfl⟩
  unfold decode_build_link
  cases hA : py_startswith s "[&" <;> cases hB : py_endswith s "]" <;>
    simp only [hA, hB, Bool.and_self, Bool.and_false, Bool.false_and,
      Bool.and_true, Bool.true_and, if_true, if_false, Bool.false_eq_true,
      false_and, and_false, and_self, not_false_iff, iff_true, not_true,
      iff_false]
  cases hD : b64decode (base64_part s) with
  | none => simp
  | some bs =>
    match bs with
    | [] => simp [parse_decoded_bytes]
    | [a] => simp [parse_decoded_bytes]
    | [a, b] => simp [parse_decoded_bytes]
    | a :: b :: c :: t => simp [parse_decoded_bytes]

/-- C4 counterexample: the payload of `"[&***]"` is not valid base64
(every character is outside the alphabet), yet decoding does not fail
through the base64-error exit: the non-strict decoder discards the
`*` characters, decodes the empty byte sequence, and the empty-payload
exit fires instead. -/
theorem star_payload_fails_without_badEncoding :
    decode_build_link "[&***]" = .error .emptyPayload ∧
    DecodeErr.emptyPayload ≠ DecodeErr.badEncoding :=
  ⟨rfl, by decide⟩

/-- C4 amended: for every input with a well-formed `[&`...`]`
envelope whose payload makes `base64.b64decode` raise (after the
decoder discards characters outside the standard alphabet, the
leftover quad is incomplete), decoding fails through the
base64-error exit rather than returning any decoded value. -/
theorem badEncoding_of_b64_failure (s : String)
    (h1 : py_startswith s "[&" = true) (h2 : py_endswith s "]" = true)
    (h3 : b64decode (base64_part s) = none) :
    decode_build_link s = .error .badEncoding := by
  unfold decode_build_link
  simp [h1, h2, h3]

/-- Witness for the C4 amended theorem at the concrete input
`"[&A]"`, whose single-character payload has an incomplete quad. -/
theorem badEncoding_of_b64_failure_witness :
    py_startswith "[&A]" "[&" = true ∧ py_endswith "[&A]" "]" = true ∧
    b64decode (base64_part "[&A]") = none ∧
    decode_build_link "[&A]" = .error .badEncoding :=
  ⟨by decide, by decide, rfl,
    badEncoding_of_b64_failure "[&A]" (by decide) (by decide) rfl⟩

/-- C5 counterexample: a 27-byte payload whose leading byte is the
BuildLink tag `0x0A` decodes successfully — the code never requires
28 bytes and reports no needed/got counts, refuting the claimed
`Truncated` failure. -/
theorem buildlink_27_bytes_decodes_ok :
    decode_build_link ("[&Cg" ++ String.mk (List.replicate 34 'A') ++ "]") =
      .ok { link_type := 0x0A, version := 0, profession_id_simplified := 0,
            raw_bytes := 10 :: List.replicate 26 0 } ∧
    (10 :: List.replicate 26 0 : List Nat).length = 27 := by
  constructor <;> rfl

/-- C5 amended: only decoded payloads of one or two bytes fail
through the too-short (`IndexError`) exit, with no needed/got byte
counts; any payload of at least three bytes is accepted regardless of
its leading tag, so a 27-byte BuildLink-tagged payload decodes
successfully instead of failing. -/
theorem tooShort_only_below_three_bytes (bs : List Nat) (h : bs ≠ []) :
    (bs.length < 3 → parse_decoded_bytes bs = .error .tooShort) ∧
    (3 ≤ bs.length → ∃ v, parse_decoded_bytes bs = .ok v) := by
  match bs with
  | [] => exact absurd rfl h
  | [a] =>
    exact ⟨fun _ => rfl, fun h3 => absurd h3
      (by simp only [List.length_cons, List.length_nil]; omega)⟩
  | [a, b] =>
    exact ⟨fun _ => rfl, fun h3 => absurd h3
      (by simp only [List.length_cons, List.length_nil]; omega)⟩
  | a :: b :: c :: t =>
    refine ⟨fun hlt => absurd hlt ?_, fun _ => ⟨_, rfl⟩⟩
    simp only [List.length_cons, not_lt]
    omega

/-- Witness for the C5 amended theorem at the concrete two-byte
payload `[1, 2]`. -/
theorem tooShort_only_below_three_bytes_witness :
    ([1, 2] : List Nat) ≠ [] ∧ ([1, 2] : List Nat).length < 3 ∧
    parse_decoded_bytes [1, 2] = .error .tooShort :=
  ⟨by decide, by decide,
    (tooShort_only_below_three_bytes [1, 2] (by decide)).1 (by decide)⟩

/-- C6 counterexample: the decoded sequence of `"[&/wAA]"` starts
with tag byte `0xFF`, which is no known link kind, yet decoding
returns a value — the code has no tag dispatch and no unknown-type
failure.  The spec's own test input `"[&/w==]"` does fail, but
through the too-short exit (its payload is one byte), not because of
its tag. -/
theorem unknown_tag_accepted :
    decode_build_link "[&/wAA]" =
      .ok { link_type := 0xFF, version := 0, profession_id_simplified := 0,
            raw_bytes := [0xFF, 0, 0] } ∧
    decode_build_link "[&/w==]" = .error .tooShort :=
  ⟨rfl, rfl⟩

/-- C6 amended: `decode_build_link` performs no dispatch on the
leading tag byte: every payload of at least three bytes is accepted
with its first byte taken verbatim as `link_type`, whatever its
value. -/
theorem parse_ignores_tag (t v p : Nat) (rest : List Nat) :
    parse_decoded_bytes (t :: v :: p :: rest) =
      .ok { link_type := t, version := v, profession_id_simplified := p,
            raw_bytes := t :: v :: p :: rest } := rfl

/-- C7 counterexample: the payload `[10, 1, 2]` (link `"[&CgEC]"`)
decodes with `profession_id_simplified = 2`, the byte at offset 2,
while the byte at offset 1 is `1 ≠ 2` — the code reads the third
byte, not the second. -/
theorem profession_not_byte1 :
    decode_build_link "[&CgEC]" =
      .ok { link_type := 10, version := 1, profession_id_simplified := 2,
            raw_bytes := [10, 1, 2] } ∧
    ([10, 1, 2] : List Nat).getD 1 0 = 1 ∧ (2 : Nat) ≠ 1 :=
  ⟨rfl, rfl, by decide⟩

/-- C7 amended: for every payload accepted by the parse, the
resulting `profession_id_simplified` equals the byte at offset 2 of
the sequence (the third byte, after link type and version), taken
verbatim with no catalog validation. -/
theorem profession_is_byte2 (bs : List Nat) (v : Decoded)
    (h : parse_decoded_bytes bs = .ok v) :
    v.profession_id_simplified = bs.getD 2 0 := by
  match bs with
  | [] => exact Except.noConfusion h
  | [a] => exact Except.noConfusion h
  | [a, b] => exact Except.noConfusion h
  | a :: b :: c :: t =>
    simp only [parse_decoded_bytes, Except.ok.injEq] at h
    rw [← h]
    rfl

/-- Witness for the C7 amended theorem at the payload `[10, 1, 2]`. -/
theorem profession_is_byte2_witness :
    parse_decoded_bytes [10, 1, 2] =
      .ok { link_type := 10, version := 1, profession_id_simplified := 2,
            raw_bytes := [10, 1, 2] } ∧
    Decoded.profession_id_simplified
        { link_type := 10, version := 1, profession_id_simplified := 2,
          raw_bytes := [10, 1, 2] } = ([10, 1, 2] : List Nat).getD 2 0 :=
  ⟨rfl, profession_is_byte2 [10, 1, 2] _ rfl⟩

/-- C8: packing tier choices in {0,1,2,3} and unpacking the packed
byte are mutually inverse, and packing `{1,2,3}` yields `0x39`, which
unpacks back to `{1,2,3}`. -/
theorem trait_pack_unpack_inverse (t0 t1 t2 : Nat)
    (h0 : t0 < 4) (h1 : t1 < 4) (h2 : t2 < 4) :
    (unpack_trait (pack_traits t0 t1 t2) 0 = t0 ∧
     unpack_trait (pack_traits t0 t1 t2) 1 = t1 ∧
     unpack_trait (pack_traits t0 t1 t2) 2 = t2) ∧
    pack_traits 1 2 3 = 0x39 ∧
    (unpack_trait 0x39 0 = 1 ∧ unpack_trait 0x39 1 = 2 ∧
     unpack_trait 0x39 2 = 3) := by
  refine ⟨?_, by decide, by decide⟩
  interval_cases t0 <;> interval_cases t1 <;> interval_cases t2 <;> decide

/-- Witness for C8 at the tier choices `{1, 2, 3}`. -/
theorem trait_pack_unpack_inverse_witness :
    (1 : Nat) < 4 ∧ (2 : Nat) < 4 ∧ (3 : Nat) < 4 ∧
    (unpack_trait (pack_traits 1 2 3) 0 = 1 ∧
     unpack_trait (pack_traits 1 2 3) 1 = 2 ∧
     unpack_trait (pack_traits 1 2 3) 2 = 3) :=
  ⟨by decide, by decide, by decide,
    (trait_pack_unpack_inverse 1 2 3 (by decide) (by decide) (by decide)).1⟩

/-- C9: `encode_build_link` is a constant function — every pair of
inputs, of any types, produces the same output, and that output is
the fixed string `"[CgECAQIDBAUGBwgJCgsM]"`. -/
theorem encode_build_link_constant {α β : Type} (d1 : α) (d2 : β) :
    encode_build_link d1 = encode_build_link d2 ∧
    encode_build_link d1 = "[CgECAQIDBAUGBwgJCgsM]" :=
  ⟨rfl, rfl⟩

/-- C10: `decode_build_link` succeeds exactly when the envelope
markers are present, the payload base64-decodes, and the decoded
payload holds at least three bytes; in particular `"[&]"`, whose
payload decodes to the empty byte sequence, fails. -/
theorem decode_success_iff :
    (∀ s : String, (∃ v, decode_build_link s = .ok v) ↔
      (py_startswith s "[&" = true ∧ py_endswith s "]" = true ∧
        ∃ bs, b64decode (base64_part s) = some bs ∧ 3 ≤ bs.length)) ∧
    decode_build_link "[&]" = .error .emptyPayload := by
  refine ⟨fun s => ?_, rfl⟩
  unfold decode_build_link
  cases hA : py_startswith s "[&" <;> cases hB : py_endswith s "]" <;>
    simp only [hA, hB, Bool.and_self, Bool.and_false, Bool.false_and,
      Bool.and_true, Bool.true_and, if_true, if_false, Bool.false_eq_true,
      false_and, and_false, and_self, true_and, iff_false, not_exists]
  · intro v hv
    exact Except.noConfusion hv
  · intro v hv
    exact Except.noConfusion hv
  · intro v hv
    exact Except.noConfusion hv
  · cases hD : b64decode (base64_part s) with
    | none =>
      simp only [hD]
      constructor
      · rintro ⟨v, hv⟩
        exact Except.noConfusion hv
      · rintro ⟨bs, hbs, _⟩
        exact Option.noConfusion hbs
    | some bs =>
      simp only [hD, Option.some.injEq]
      rw [parse_ok_iff_three_le]
      constructor
      · intro h3
        exact ⟨bs, rfl, h3⟩
      · rintro ⟨bs2, hbs2, h3⟩
        cases hbs2
        exact h3
